import Mathlib

/-!
Verification of the pydwdapi weather-data core (src/pydwdapi.py) against its
natural-language specification.

The Python source is shallowly embedded as follows:

* IEEE floating-point cells are modelled as `Option ℚ`: `none` is the NaN
  "missing" sentinel, `some q` a finite numeric value.  Arithmetic on values
  is exact rational arithmetic; the claims under scrutiny only involve exact
  decimal quantities (scale factors 2.0 and 1/3.6, table literals), so no
  rounding behaviour is lost that the claims depend on.
* The trigonometric distance kernel of `PyDWDApi.interpolate` (lines 425-455)
  is embedded over `ℝ` with `Real.sin`/`Real.cos`/`Real.sqrt`/`Real.arctan`.
* `html.parser.HTMLParser` (the Python standard library tokenizer) is outside
  the repository; the repository's subclass `HTMLTableParser` only consumes
  its callback stream, so the embedding takes the callback event stream
  (`HtmlEvent`) as input and models the repository's handler methods exactly.
* The FTP transport is outside the repository; `PyDWDApi.query` is modelled
  as a function of the fetch outcome (`FetchResult`): a transport exception,
  "no qualifying file" (`most_recent is None`), or the downloaded content
  (as a callback event stream) together with the file's modification time.
  The extra `didFetch` flag records whether control reached the download
  block, making "network activity" observable.
* `scipy.interpolate.Rbf` is an external library; the radial-basis fit it
  performs is modelled from the spec (see `IsRbfFit`).
-/

/-- Python `str.strip()` (default whitespace strip), as used on table cell
text.  Python strips a slightly larger Unicode whitespace class; the claims
only involve ASCII whitespace. -/
def pyStrip (s : String) : String :=
  String.mk (((s.data.dropWhile Char.isWhitespace).reverse.dropWhile
    Char.isWhitespace).reverse)

/-- Numeric value of a list of decimal digit characters. -/
def digitsVal (cs : List Char) : ℕ :=
  cs.foldl (fun a c => a * 10 + (c.toNat - 48)) 0

/-- Sign prefix of a Python float literal. -/
def pyFloatSign : List Char → ℚ × List Char
  | '+' :: r => (1, r)
  | '-' :: r => (-1, r)
  | r => (1, r)

/-- Exponent part of a Python float literal (text after `e`/`E`). -/
def pyFloatExp (cs : List Char) : Option ℤ :=
  match cs with
  | '+' :: r => if r ≠ [] ∧ r.all Char.isDigit then some (digitsVal r) else none
  | '-' :: r => if r ≠ [] ∧ r.all Char.isDigit then some (-(digitsVal r : ℤ)) else none
  | r => if r ≠ [] ∧ r.all Char.isDigit then some (digitsVal r) else none

/-- Assembles a float from integer-part digits `ip`, fraction digits `fp`,
the remaining characters `rest` (empty or an exponent) and the sign. -/
def pyFloatMantExp (ip fp rest : List Char) (sg : ℚ) : Option ℚ :=
  if ip = [] ∧ fp = [] then none
  else
    let mant : ℚ := sg * ((digitsVal ip : ℚ) + (digitsVal fp : ℚ) / (10 : ℚ) ^ fp.length)
    match rest with
    | [] => some mant
    | 'e' :: r => (pyFloatExp r).map (fun e => mant * (10 : ℚ) ^ e)
    | 'E' :: r => (pyFloatExp r).map (fun e => mant * (10 : ℚ) ^ e)
    | _ => none

/-- Python's builtin `float(...)` on cell text (line 407), returning `none`
where Python raises `ValueError`.  The model covers finite decimal literals
(optional sign, digits, decimal point, exponent, surrounding whitespace);
the special literals `nan`/`inf` are mapped to `none`, which coincides with
the NaN sentinel the caller stores for them. -/
def pyFloat (s : String) : Option ℚ :=
  let t := (pyStrip s).data
  if t = [] then none
  else
    let su := pyFloatSign t
    let ir := su.2.span Char.isDigit
    match ir.2 with
    | '.' :: r2 =>
        let fr := r2.span Char.isDigit
        pyFloatMantExp ir.1 fr.1 fr.2 su.1
    | _ => pyFloatMantExp ir.1 [] ir.2 su.1

/-! ## Translation tables (lines 106-165) -/

/-- Canonical record fields of `RECORD_DTYPE` (lines 106-111). -/
inductive FieldKey where
  | latitude | longitude | altitude
  | temperature | pressure | humidity | precipitation
  | wind_direction_x | wind_direction_y | wind_speed | wind_speed_max
  deriving DecidableEq, Repr

/-- Field name of each `RECORD_DTYPE` entry. -/
def fieldName : FieldKey → String
  | .latitude => "latitude"
  | .longitude => "longitude"
  | .altitude => "altitude"
  | .temperature => "temperature"
  | .pressure => "pressure"
  | .humidity => "humidity"
  | .precipitation => "precipitation"
  | .wind_direction_x => "wind_direction_x"
  | .wind_direction_y => "wind_direction_y"
  | .wind_speed => "wind_speed"
  | .wind_speed_max => "wind_speed_max"

/-- Map from wind direction names to vectorial wind direction
(`DWD_DIRECTION_MAP`, lines 140-149), transcribed verbatim: note that the
`"NW"` entry repeats the `"SO"` vector. -/
def DWD_DIRECTION_MAP : List (String × ℚ × ℚ) :=
  [("N", (0.00, 1.00)),
   ("NO", (0.71, 0.71)),
   ("O", (1.00, 0.00)),
   ("SO", (0.71, -0.71)),
   ("S", (0.0, -1.0)),
   ("SW", (-0.71, -0.71)),
   ("W", (-1.0, 0.0)),
   ("NW", (0.71, -0.71))]

/-- Map from table column names to record keys (`DWD_KEY_MAP`, lines
153-165).  A plain string value (`Sum.inl`) gets default scale 1.0 during
header translation; a tuple value (`Sum.inr`) carries its scale factor. -/
def DWD_KEY_MAP : List (String × (String ⊕ String × ℚ)) :=
  [("STATION", .inl "station"),
   ("Station", .inl "station"),
   ("HÖHE", .inl "altitude"),
   ("LUFTD.", .inl "pressure"),
   ("TEMP.", .inl "temperature"),
   ("U%", .inl "humidity"),
   ("RR1", .inl "precipitation"),
   ("RR30", .inr ("precipitation", 2.0)),
   ("DD", .inl "wind_direction"),
   ("FF", .inr ("wind_speed", 1 / 3.6)),
   ("FX", .inr ("wind_speed_max", 1 / 3.6))]

/-- Station coordinates `(altitude, latitude, longitude)`
(`DWD_STATION_LOCATION_MAP`, lines 175-255). -/
def DWD_STATION_LOCATION_MAP : List (String × ℚ × ℚ × ℚ) :=
  [("Aachen", (231, 50.8, 6.02)),
   ("Angermünde", (54, 53.03, 13.99)),
   ("Arkona", (42, 54.68, 13.43)),
   ("Augsburg", (461, 48.43, 10.94)),
   ("Bad Lippspringe", (140, 51.78, 8.82)),
   ("Bamberg", (240, 49.87, 10.92)),
   ("Berlin-Dahlem", (51, 52.45, 13.3)),
   ("Berlin-Tegel", (36, 52.56, 13.31)),
   ("Berlin-Tempelhof", (48, 52.47, 13.4)),
   ("Bremen-Flh.", (4, 53.05, 8.8)),
   ("Brocken", (1141, 51.8, 10.62)),
   ("Cottbus", (69, 51.78, 14.32)),
   ("Cuxhaven", (5, 53.87, 8.71)),
   ("Dresden-Flh.", (221, 51.13, 13.76)),
   ("Düsseldorf-Flh.", (37, 51.3, 6.77)),
   ("Emden", (0, 53.39, 7.23)),
   ("Erfurt", (316, 50.98, 10.96)),
   ("Essen", (150, 51.4, 6.97)),
   ("Fehmarn", (3, 54.53, 11.06)),
   ("Feldberg/Schw.", (930, 47.87, 8.0)),
   ("Fichtelberg", (654, 49.98, 11.84)),
   ("Frankfurt/M-Flh.", (100, 50.03, 8.57)),
   ("Freudenstadt", (797, 48.45, 8.41)),
   ("Fritzlar", (172, 51.12, 9.28)),
   ("Fürstenzell", (476, 48.55, 13.35)),
   ("Gera", (311, 50.88, 12.13)),
   ("Gießen/Wettenberg", (203, 50.6, 8.64)),
   ("Greifswald", (2, 54.1, 13.41)),
   ("Grosser Arber", (1455, 49.11, 13.14)),
   ("Görlitz", (238, 51.16, 14.95)),
   ("Hahn-Flh.", (497, 49.95, 7.26)),
   ("Hamburg-Flh.", (11, 53.63, 9.99)),
   ("Hannover-Flh.", (55, 52.46, 9.68)),
   ("Helgoland", (4, 54.17, 7.89)),
   ("Hof", (565, 50.31, 11.88)),
   ("Hohenpeissenberg", (977, 47.8, 11.01)),
   ("Kahler Asten", (839, 51.18, 8.49)),
   ("Karlsruhe-Rheinst.", (116, 48.96, 8.29)),
   ("Kempten", (705, 47.72, 10.33)),
   ("Kiel", (27, 54.38, 10.14)),
   ("Konstanz", (443, 47.68, 9.19)),
   ("Köln/Bonn-Flh.", (92, 50.86, 7.16)),
   ("Lahr", (155, 48.36, 7.83)),
   ("Leipzig-Flh.", (131, 51.43, 12.24)),
   ("Leuchtt. Alte Weser", (0, 53.86, 8.13)),
   ("Leuchtturm Kiel", (0, 54.5, 10.27)),
   ("Lindenberg", (98, 52.21, 14.12)),
   ("List/Sylt", (26, 55.01, 8.41)),
   ("Lüchow", (17, 52.97, 11.14)),
   ("Magdeburg", (76, 52.1, 11.58)),
   ("Mannheim", (96, 49.51, 8.55)),
   ("Marnitz", (81, 53.32, 11.93)),
   ("Meiningen", (450, 50.56, 10.38)),
   ("München-Flh.", (446, 48.35, 11.81)),
   ("Münster/Osnabr.-Flh.", (48, 52.13, 7.7)),
   ("Neuruppin", (38, 52.9, 12.81)),
   ("Norderney", (11, 53.71, 7.15)),
   ("Nürburg", (485, 50.36, 6.87)),
   ("Nürnberg-Flh.", (368, 49.43, 11.25)),
   ("OF-Wetterpark", (119, 50.09, 8.79)),
   ("Oberstdorf", (806, 47.4, 10.28)),
   ("Potsdam", (81, 52.38, 13.06)),
   ("Regensburg", (365, 49.04, 12.1)),
   ("Rostock", (4, 54.18, 12.08)),
   ("Saarbrücken-Flh.", (320, 49.21, 7.11)),
   ("Schleswig", (43, 54.53, 9.55)),
   ("Schwerin", (59, 53.64, 11.39)),
   ("Straubing", (350, 48.83, 12.56)),
   ("Stuttgart-Flh.", (371, 48.69, 9.22)),
   ("Stötten", (734, 48.67, 9.86)),
   ("Trier", (132, 49.73, 6.61)),
   ("UFS Deutsche Bucht", (0, 54.18, 7.46)),
   ("UFS TW Ems", (0, 54.16, 6.35)),
   ("Waren", (73, 53.52, 12.67)),
   ("Wasserkuppe", (921, 50.5, 9.94)),
   ("Weiden", (440, 49.67, 12.18)),
   ("Würzburg", (268, 49.77, 9.96)),
   ("Zugspitze", (2962, 47.42, 10.98)),
   ("Öhringen", (276, 49.21, 9.52))]

/-! ## Measurement records (`RECORD_DTYPE` rows) -/

/-- One row of the numpy structured array built in `PyDWDApi.query`
(line 366).  Each field is float-or-NaN; `none` models NaN. -/
structure MeasurementRecord where
  latitude : Option ℚ
  longitude : Option ℚ
  altitude : Option ℚ
  temperature : Option ℚ
  pressure : Option ℚ
  humidity : Option ℚ
  precipitation : Option ℚ
  wind_direction_x : Option ℚ
  wind_direction_y : Option ℚ
  wind_speed : Option ℚ
  wind_speed_max : Option ℚ
  deriving DecidableEq, Repr

/-- Row of `np.zeros(..., dtype=RECORD_DTYPE)` (line 366): every field is
the number 0.0 — not NaN. -/
def zeroRecord : MeasurementRecord :=
  ⟨some 0, some 0, some 0, some 0, some 0, some 0, some 0, some 0, some 0,
   some 0, some 0⟩

/-- Reads the field `f` of a record (numpy `res[name][j]` read). -/
def getField (r : MeasurementRecord) : FieldKey → Option ℚ
  | .latitude => r.latitude
  | .longitude => r.longitude
  | .altitude => r.altitude
  | .temperature => r.temperature
  | .pressure => r.pressure
  | .humidity => r.humidity
  | .precipitation => r.precipitation
  | .wind_direction_x => r.wind_direction_x
  | .wind_direction_y => r.wind_direction_y
  | .wind_speed => r.wind_speed
  | .wind_speed_max => r.wind_speed_max

/-- Writes the field `f` of a record (numpy `res[name][j] = v` write). -/
def updateField (r : MeasurementRecord) (f : FieldKey) (v : Option ℚ) :
    MeasurementRecord :=
  match f with
  | .latitude => { r with latitude := v }
  | .longitude => { r with longitude := v }
  | .altitude => { r with altitude := v }
  | .temperature => { r with temperature := v }
  | .pressure => { r with pressure := v }
  | .humidity => { r with humidity := v }
  | .precipitation => { r with precipitation := v }
  | .wind_direction_x => { r with wind_direction_x := v }
  | .wind_direction_y => { r with wind_direction_y := v }
  | .wind_speed => { r with wind_speed := v }
  | .wind_speed_max => { r with wind_speed_max := v }

/-- Resolution of a string key against the `RECORD_DTYPE` field names
(the numpy structured-array key lookup). -/
def nameToField (name : String) : Option FieldKey :=
  if name = "latitude" then some .latitude
  else if name = "longitude" then some .longitude
  else if name = "altitude" then some .altitude
  else if name = "temperature" then some .temperature
  else if name = "pressure" then some .pressure
  else if name = "humidity" then some .humidity
  else if name = "precipitation" then some .precipitation
  else if name = "wind_direction_x" then some .wind_direction_x
  else if name = "wind_direction_y" then some .wind_direction_y
  else if name = "wind_speed" then some .wind_speed
  else if name = "wind_speed_max" then some .wind_speed_max
  else none

/-- `res[name][j] = v` for a string key: a no-op for a key that is not a
`RECORD_DTYPE` field (unreachable from the translated header). -/
def setField (r : MeasurementRecord) (name : String) (v : Option ℚ) :
    MeasurementRecord :=
  match nameToField name with
  | some f => updateField r f v
  | none => r

/-! ## RecordNormalizer: header translation and row processing
(`PyDWDApi.query`, lines 368-409) -/

/-- Canonical name of a raw header token, `none` for an unmapped token
(lines 371-381, first list). -/
def headerName (col : String) : Option String :=
  match List.lookup col DWD_KEY_MAP with
  | some (.inl name) => some name
  | some (.inr p) => some p.1
  | none => none

/-- Translation of the header row (lines 368-381).  Returns the translated
names (one entry per column, `none` for unmapped columns) and the scale
list.  Note the scale list receives an entry only for *mapped* columns —
exactly as the Python `else` branch appends to `header` but not to
`scale` — so the two lists fall out of step after an unmapped column. -/
def translateHeader : List String → List (Option String) × List ℚ
  | [] => ([], [])
  | col :: rest =>
      let tr := translateHeader rest
      match List.lookup col DWD_KEY_MAP with
      | some (.inl name) => (some name :: tr.1, 1.0 :: tr.2)
      | some (.inr p) => (some p.1 :: tr.1, p.2 :: tr.2)
      | none => (none :: tr.1, tr.2)

/-- Processing of one mapped cell (lines 388-409): the `station` branch
sets the location triple from `DWD_STATION_LOCATION_MAP` (or all three to
NaN on a miss), the `wind_direction` branch sets the direction pair from
`DWD_DIRECTION_MAP` (or both to NaN), and every other name stores
`float(col) * scale[i]`, degrading to NaN when `float` raises *or* when
`scale[i]` is out of range (both exceptions are caught by line 408). -/
def applyCell (r : MeasurementRecord) (name : String) (scale : List ℚ)
    (i : ℕ) (col : String) : MeasurementRecord :=
  if name = "station" then
    match List.lookup col DWD_STATION_LOCATION_MAP with
    | some loc =>
        { r with latitude := some loc.2.1, longitude := some loc.2.2,
                 altitude := some loc.1 }
    | none => { r with latitude := none, longitude := none, altitude := none }
  else if name = "wind_direction" then
    match List.lookup col DWD_DIRECTION_MAP with
    | some d =>
        { r with wind_direction_x := some d.1, wind_direction_y := some d.2 }
    | none => { r with wind_direction_x := none, wind_direction_y := none }
  else
    match pyFloat col with
    | some v =>
        match scale.get? i with
        | some s => setField r name (some (v * s))
        | none => setField r name none
    | none => setField r name none

/-- One iteration of the inner loop of lines 385-409: a cell is skipped when
its index is beyond the header or its header entry is unmapped. -/
def rowStep (header : List (Option String)) (scale : List ℚ)
    (r : MeasurementRecord) (icol : ℕ × String) : MeasurementRecord :=
  match header.get? icol.1 with
  | some (some name) => applyCell r name scale icol.1 icol.2
  | _ => r

/-- Processing of one data row (lines 384-409): the row's record starts as
the `np.zeros` row and each enumerated cell is applied in order. -/
def processRow (header : List (Option String)) (scale : List ℚ)
    (row : List String) : MeasurementRecord :=
  row.enum.foldl (rowStep header scale) zeroRecord

/-- The whole normalization of the first extracted table (lines 364-409):
row zero is the header, each remaining row yields one record.  Row `j` of
the numpy array is written only while processing data row `j`, so the rows
are independent and the loop is a `map`. -/
def normalizeTable : List (List String) → List MeasurementRecord
  | [] => []
  | hdr :: rows =>
      let tr := translateHeader hdr
      rows.map (processRow tr.1 tr.2)

/-- Record fields written by the `applyCell` branch selected by a translated
header name: `station` writes the location triple, `wind_direction` the
direction pair, any other name the field of that name (if any). -/
def targetsField (name : String) (f : FieldKey) : Bool :=
  if name = "station" then
    match f with
    | .latitude | .longitude | .altitude => true
    | _ => false
  else if name = "wind_direction" then
    match f with
    | .wind_direction_x | .wind_direction_y => true
    | _ => false
  else decide (nameToField name = some f)

/-! ## Eligibility filter and interpolation entry (lines 301-308, 457-471) -/

/-- `PyDWDApi._data_filter` (lines 301-308): a row is kept iff none of
latitude, longitude, altitude and the requested field is NaN (numpy `+` on
booleans is logical or). -/
def dataFilter (r : MeasurementRecord) (key : FieldKey) : Bool :=
  !(r.altitude.isNone || r.latitude.isNone || r.longitude.isNone ||
    (getField r key).isNone)

/-- Lines 457-471 of `PyDWDApi.interpolate` up to the external
`scipy.interpolate.Rbf` call: the rows passing `_data_filter` are selected;
if none passes, the call returns `None` ("unavailable" for every query
point).  Otherwise the eligible `(latitude, longitude, altitude, value)`
samples are handed to the radial-basis fit, which is modelled separately
(`IsRbfFit`) because scipy is outside the repository. -/
def interpolateSamples (data : List MeasurementRecord) (key : FieldKey) :
    Option (List ((ℚ × ℚ × ℚ) × ℚ)) :=
  let flt := data.filter (fun r => dataFilter r key)
  if flt.isEmpty then none
  else some (flt.map (fun r =>
    ((r.latitude.getD 0, r.longitude.getD 0, r.altitude.getD 0),
     (getField r key).getD 0)))

/-! ## HTMLTableParser (lines 40-99) -/

/-- Callback events delivered by the standard-library `HTMLParser`
tokenizer (which is outside this repository) to the repository's handler
methods. -/
inductive HtmlEvent where
  | starttag (tag : String)
  | endtag (tag : String)
  | data (s : String)
  deriving DecidableEq, Repr

/-- Parser state of `HTMLTableParser` (lines 45-57). -/
structure HTMLTableParser where
  data_separator : String
  in_td : Bool
  in_th : Bool
  current_table : List (List String)
  current_row : List String
  current_cell : List String
  tables : List (List (List String))
  deriving DecidableEq, Repr

/-- `HTMLTableParser.__init__` (lines 45-57) with its default separator
`' '`; `decode_html_entities` defaults to `False`, so `handle_charref` is
inert and is not modelled. -/
def mkHTMLTableParser (sep : String) : HTMLTableParser :=
  ⟨sep, false, false, [], [], [], []⟩

/-- `handle_starttag` (lines 59-66). -/
def handle_starttag (p : HTMLTableParser) (tag : String) : HTMLTableParser :=
  let p := if tag = "td" then { p with in_td := true } else p
  if tag = "th" then { p with in_th := true } else p

/-- `handle_data` (lines 68-71): text is accumulated, stripped fragment by
fragment, only while inside a `td` or `th` cell. -/
def handle_data (p : HTMLTableParser) (s : String) : HTMLTableParser :=
  if p.in_td || p.in_th then
    { p with current_cell := p.current_cell ++ [pyStrip s] }
  else p

/-- `handle_endtag` (lines 79-99): closing a cell joins the accumulated
fragments with the separator, strips the result and appends it to the
current row; closing a row/table appends the buffer one level up. -/
def handle_endtag (p : HTMLTableParser) (tag : String) : HTMLTableParser :=
  let p := if tag = "td" then { p with in_td := false } else p
  let p := if tag = "th" then { p with in_th := false } else p
  if tag = "td" ∨ tag = "th" then
    { p with
      current_row :=
        p.current_row ++ [pyStrip (p.data_separator.intercalate p.current_cell)],
      current_cell := [] }
  else if tag = "tr" then
    { p with current_table := p.current_table ++ [p.current_row],
             current_row := [] }
  else if tag = "table" then
    { p with tables := p.tables ++ [p.current_table], current_table := [] }
  else p

/-- Dispatch of one tokenizer callback. -/
def step (p : HTMLTableParser) (e : HtmlEvent) : HTMLTableParser :=
  match e with
  | .starttag t => handle_starttag p t
  | .endtag t => handle_endtag p t
  | .data s => handle_data p s

/-- `feed`: the tokenizer delivers the events of the document in order. -/
def feed (p : HTMLTableParser) (evs : List HtmlEvent) : HTMLTableParser :=
  evs.foldl step p

/-- Tables extracted from fetched content (lines 359-360: a fresh default
`HTMLTableParser` is fed the downloaded text). -/
def parseTables (evs : List HtmlEvent) : List (List (List String)) :=
  (feed (mkHTMLTableParser " ") evs).tables

/-! ## DataCache / query (lines 271-276, 310-416) -/

/-- Refresh interval: `self.timeout = 30 * 60` (line 276), never mutated. -/
def timeout : ℤ := 30 * 60

/-- Mutable state of a `PyDWDApi` instance: the cached record set (`None`
initially) and `current_data_modification` (0 initially, line 274-275). -/
structure ApiState where
  current_data : Option (List MeasurementRecord)
  current_data_modification : ℤ
  deriving DecidableEq, Repr

/-- State right after `__init__` (lines 271-276). -/
def initState : ApiState := ⟨none, 0⟩

/-- Outcome of the FTP interaction of lines 331-355, which is outside the
repository's control: an exception from `ftplib` (propagated uncaught), no
entry ending in `_U_HTML` (`most_recent is None`), or the downloaded
content — as the tokenizer event stream of the joined lines — together
with the selected entry's modification time. -/
inductive FetchResult where
  | transportError
  | noMatch
  | ok (events : List HtmlEvent) (modify : ℤ)
  deriving DecidableEq, Repr

instance {e a : Type} [DecidableEq e] [DecidableEq a] : DecidableEq (Except e a) :=
  fun x y =>
    match x, y with
    | .error u, .error v =>
        if h : u = v then .isTrue (h ▸ rfl) else .isFalse (by simp [h])
    | .error _, .ok _ => .isFalse (by simp)
    | .ok _, .error _ => .isFalse (by simp)
    | .ok u, .ok v =>
        if h : u = v then .isTrue (h ▸ rfl) else .isFalse (by simp [h])

/-- Result of one `query` call: the returned value (`Except.error` models
the uncaught transport exception, `Option` the `None`/data return), the
instance state after the call, and whether the FTP block was entered
(observable network activity). -/
structure QueryResult where
  result : Except Unit (Option (List MeasurementRecord))
  state : ApiState
  didFetch : Bool
  deriving DecidableEq, Repr

/-- `PyDWDApi.query` (lines 310-416) as a function of the current state,
the wall-clock time `now` and the fetch outcome.  Lines 321-323: the cached
data is returned without network activity iff it exists and
`now - current_data_modification < timeout`.  Lines 350-351 and 361-362:
the no-file and empty-parse failures return `None` without touching the
cache.  Lines 364-413: otherwise the first table is normalized, cached, and
`current_data_modification` is set to the *upstream* modification time. -/
def query (st : ApiState) (now : ℤ) (fr : FetchResult) : QueryResult :=
  if now - st.current_data_modification < timeout ∧ st.current_data.isSome then
    ⟨.ok st.current_data, st, false⟩
  else
    match fr with
    | .transportError => ⟨.error (), st, true⟩
    | .noMatch => ⟨.ok none, st, true⟩
    | .ok evs modify =>
        match parseTables evs with
        | [] => ⟨.ok none, st, true⟩
        | tbl :: _ =>
            if tbl.length = 0 then ⟨.ok none, st, true⟩
            else
              let res := normalizeTable tbl
              ⟨.ok (some res), ⟨some res, modify⟩, true⟩

/-! ## The interpolator's distance kernel (lines 425-455), over `ℝ` -/

/-- A query or station point `(latitude, longitude, altitude)` as consumed
by `data_norm` (lines 446-451). -/
structure GeoPoint where
  lat : ℝ
  lon : ℝ
  alt : ℝ

/-- `deg2rad` (lines 425-426). -/
noncomputable def deg2rad (deg : ℝ) : ℝ := deg * Real.pi / 180.0

/-- `math.atan2` (C library semantics over exact reals; the sign of a zero
argument is not representable over `ℝ`, and no claim depends on it). -/
noncomputable def atan2 (y x : ℝ) : ℝ :=
  if 0 < x then Real.arctan (y / x)
  else if x < 0 then
    if 0 ≤ y then Real.arctan (y / x) + Real.pi
    else Real.arctan (y / x) - Real.pi
  else
    if 0 < y then Real.pi / 2
    else if y < 0 then -(Real.pi / 2)
    else 0

/-- The haversine intermediate `a` (lines 430-433). -/
noncomputable def haversineA (lat1 lon1 lat2 lon2 : ℝ) : ℝ :=
  Real.sin (deg2rad (lat2 - lat1) * 0.5) ^ 2 +
    Real.cos (deg2rad lat1) * Real.cos (deg2rad lat2) *
      Real.sin (deg2rad (lon2 - lon1) * 0.5) ^ 2

/-- `haversine` (lines 428-435): great-circle distance in km on a sphere of
radius `R = 6371.0`. -/
noncomputable def haversine (lat1 lon1 lat2 lon2 : ℝ) : ℝ :=
  6371.0 * (2.0 * atan2 (Real.sqrt (haversineA lat1 lon1 lat2 lon2))
    (Real.sqrt (1.0 - haversineA lat1 lon1 lat2 lon2)))

/-- `ALT_WEIGHT` (line 438). -/
noncomputable def ALT_WEIGHT : ℝ := 100.0

/-- The composite distance computed entrywise by `data_norm` (lines
452-454): `sqrt(d_ground² + d_alt²)` with
`d_alt = (alt1 - alt2) / 1000.0 * ALT_WEIGHT`. -/
noncomputable def dataNormDist (x1 x2 : GeoPoint) : ℝ :=
  Real.sqrt (haversine x1.lat x1.lon x2.lat x2.lon ^ 2 +
    ((x1.alt - x2.alt) / 1000.0 * ALT_WEIGHT) ^ 2)

/-- Value at `x` of a radial-basis model with the given centers and
weights: the weighted sum of the linear kernel (kernel value = the
composite distance itself) over the centers. -/
noncomputable def rbfEval (centers : List GeoPoint) (ws : List ℝ)
    (x : GeoPoint) : ℝ :=
  ((ws.zip centers).map (fun wc => wc.1 * dataNormDist x wc.2)).sum

/-- Modelled from the spec: `scipy.interpolate.Rbf` is an external library,
so the fit it performs is taken from §4.4 of the specification — "fit a
scattered-data radial-basis interpolant over the eligible records'
(latitude, longitude, altitude) as independent coordinates and the target
field as the dependent value", using the composite distance and the linear
kernel, i.e. weights making the model reproduce every sample exactly. -/
def IsRbfFit (samples : List (GeoPoint × ℝ)) (ws : List ℝ) : Prop :=
  ws.length = samples.length ∧
    ∀ s ∈ samples, rbfEval (samples.map Prod.fst) ws s.1 = s.2

/-! ## Concrete inputs used by counterexamples and witnesses -/

/-- Events of `<tr><th>TEMP.</th></tr><tr><td>5</td></tr></table>`: a
one-column table with one header row and one data row. -/
def evT : List HtmlEvent :=
  [.starttag "tr", .starttag "th", .data "TEMP.", .endtag "th", .endtag "tr",
   .starttag "tr", .starttag "td", .data "5", .endtag "td", .endtag "tr",
   .endtag "table"]

/-- Events of a header-only table: one header row, zero data rows. -/
def evH : List HtmlEvent :=
  [.starttag "tr", .starttag "th", .data "TEMP.", .endtag "th", .endtag "tr",
   .endtag "table"]

/-- A record with a full location triple and a temperature of 5 — eligible
for the `temperature` field. -/
def rec9 : MeasurementRecord :=
  { zeroRecord with latitude := some 50, longitude := some 10,
                    altitude := some 100, temperature := some 5 }

/-- The location of `rec9` as a query point. -/
noncomputable def pt9 : GeoPoint := ⟨50, 10, 100⟩

/-- A cache state holding one record set whose recorded modification time
is far in the past (stale with respect to any recent `now`). -/
def stStale : ApiState := ⟨some [zeroRecord], 0⟩

/-! ## Helper lemmas: record fields -/

theorem getField_zeroRecord (f : FieldKey) : getField zeroRecord f = some 0 := by
  cases f <;> rfl

theorem getField_updateField_self (r : MeasurementRecord) (f : FieldKey)
    (v : Option ℚ) : getField (updateField r f v) f = v := by
  cases f <;> rfl

theorem getField_updateField_ne (r : MeasurementRecord) (v : Option ℚ)
    {f g : FieldKey} (h : f ≠ g) :
    getField (updateField r g v) f = getField r f := by
  cases f <;> cases g <;> first | exact absurd rfl h | rfl

theorem nameToField_fieldName (f : FieldKey) :
    nameToField (fieldName f) = some f := by
  cases f <;> rfl

theorem getField_setField_fieldName (r : MeasurementRecord) (f : FieldKey)
    (v : Option ℚ) : getField (setField r (fieldName f) v) f = v := by
  unfold setField
  rw [nameToField_fieldName]
  exact getField_updateField_self r f v

theorem getField_setField_ne (r : MeasurementRecord) (name : String)
    (v : Option ℚ) {f : FieldKey} (h : nameToField name ≠ some f) :
    getField (setField r name v) f = getField r f := by
  unfold setField
  cases hn : nameToField name with
  | none => rfl
  | some g => exact getField_updateField_ne r v (fun he => h (by rw [hn, he]))

/-- A cell update through a header name that does not target the field `f`
leaves `f` unchanged. -/
theorem getField_applyCell_of_not_targets (r : MeasurementRecord)
    (name : String) (sc : List ℚ) (i : ℕ) (col : String) (f : FieldKey)
    (h : targetsField name f = false) :
    getField (applyCell r name sc i col) f = getField r f := by
  by_cases hs : name = "station"
  · subst hs
    unfold targetsField at h
    rw [if_pos rfl] at h
    unfold applyCell
    rw [if_pos rfl]
    cases List.lookup col DWD_STATION_LOCATION_MAP <;> cases f <;>
      simp_all [getField]
  · by_cases hw : name = "wind_direction"
    · subst hw
      unfold targetsField at h
      rw [if_neg (by decide), if_pos rfl] at h
      unfold applyCell
      rw [if_neg (by decide), if_pos rfl]
      cases List.lookup col DWD_DIRECTION_MAP <;> cases f <;>
        simp_all [getField]
    · unfold targetsField at h
      rw [if_neg hs, if_neg hw] at h
      have hnf : nameToField name ≠ some f := by
        intro he
        rw [he] at h
        simp at h
      unfold applyCell
      rw [if_neg hs, if_neg hw]
      cases pyFloat col with
      | none => exact getField_setField_ne r name none hnf
      | some v =>
          cases sc.get? i with
          | none => exact getField_setField_ne r name none hnf
          | some s => exact getField_setField_ne r name (some (v * s)) hnf

theorem getField_rowStep_of_not_targets (header : List (Option String))
    (sc : List ℚ) (r : MeasurementRecord) (ic : ℕ × String) (f : FieldKey)
    (h : ∀ nm ∈ header.filterMap id, targetsField nm f = false) :
    getField (rowStep header sc r ic) f = getField r f := by
  unfold rowStep
  cases hh : header.get? ic.1 with
  | none => rfl
  | some o =>
      cases o with
      | none => rfl
      | some nm =>
          exact getField_applyCell_of_not_targets r nm sc ic.1 ic.2 f
            (h nm (List.mem_filterMap.mpr ⟨some nm, List.get?_mem hh, rfl⟩))

theorem getField_foldl_rowStep_of_not_targets (header : List (Option String))
    (sc : List ℚ) (f : FieldKey)
    (h : ∀ nm ∈ header.filterMap id, targetsField nm f = false) :
    ∀ (l : List (ℕ × String)) (r : MeasurementRecord),
      getField r f = some 0 →
      getField (l.foldl (rowStep header sc) r) f = some 0 := by
  intro l
  induction l with
  | nil => intro r hr; simpa using hr
  | cons a l ih =>
      intro r hr
      simp only [List.foldl_cons]
      exact ih _ (by rw [getField_rowStep_of_not_targets header sc r a f h]; exact hr)

theorem translateHeader_fst (row : List String) :
    (translateHeader row).1 = row.map headerName := by
  induction row with
  | nil => rfl
  | cons c r ih =>
      simp only [translateHeader, List.map_cons]
      cases h : List.lookup c DWD_KEY_MAP with
      | none => simp [h, ih, headerName]
      | some v =>
          cases v with
          | inl n => simp [h, ih, headerName]
          | inr p => simp [h, ih, headerName]

/-! ## Helper lemmas: the distance kernel -/

theorem atan2_zero_one : atan2 0 1 = 0 := by
  unfold atan2
  rw [if_pos one_pos]
  simp [Real.arctan_zero]

theorem haversineA_same (lat lon : ℝ) : haversineA lat lon lat lon = 0 := by
  unfold haversineA deg2rad
  simp [sub_self]

theorem haversineA_symm (lat1 lon1 lat2 lon2 : ℝ) :
    haversineA lat1 lon1 lat2 lon2 = haversineA lat2 lon2 lat1 lon1 := by
  unfold haversineA
  have h1 : ∀ x y : ℝ, deg2rad (x - y) * 0.5 = -(deg2rad (y - x) * 0.5) := by
    intro x y
    unfold deg2rad
    ring
  rw [h1 lat2 lat1, h1 lon2 lon1, Real.sin_neg, Real.sin_neg]
  ring

theorem haversine_same (lat lon : ℝ) : haversine lat lon lat lon = 0 := by
  unfold haversine
  rw [haversineA_same, Real.sqrt_zero]
  norm_num [atan2_zero_one]

theorem haversine_symm (lat1 lon1 lat2 lon2 : ℝ) :
    haversine lat1 lon1 lat2 lon2 = haversine lat2 lon2 lat1 lon1 := by
  unfold haversine
  rw [haversineA_symm]

theorem dataNormDist_self (p : GeoPoint) : dataNormDist p p = 0 := by
  unfold dataNormDist
  rw [haversine_same, sub_self]
  norm_num [Real.sqrt_zero]

theorem dataNormDist_symm (p q : GeoPoint) :
    dataNormDist p q = dataNormDist q p := by
  unfold dataNormDist
  rw [haversine_symm]
  congr 1
  ring

/-! ## Helper lemmas: the table parser -/

theorem feed_cons (p : HTMLTableParser) (e : HtmlEvent) (evs : List HtmlEvent) :
    feed p (e :: evs) = feed (step p e) evs := rfl

theorem feed_append (p : HTMLTableParser) (l1 l2 : List HtmlEvent) :
    feed p (l1 ++ l2) = feed (feed p l1) l2 := by
  simp [feed, List.foldl_append]

theorem handle_endtag_td (p : HTMLTableParser) :
    handle_endtag p "td" =
      { p with in_td := false,
               current_row := p.current_row ++
                 [pyStrip (p.data_separator.intercalate p.current_cell)],
               current_cell := [] } := rfl

theorem handle_endtag_tr (p : HTMLTableParser) :
    handle_endtag p "tr" =
      { p with current_table := p.current_table ++ [p.current_row],
               current_row := [] } := rfl

theorem handle_endtag_table (p : HTMLTableParser) :
    handle_endtag p "table" =
      { p with tables := p.tables ++ [p.current_table],
               current_table := [] } := rfl

/-- While inside a cell, a run of text callbacks appends the stripped
fragments, in order, to the cell accumulator and changes nothing else. -/
theorem feed_data_acc (ds : List String) (p : HTMLTableParser)
    (hp : p.in_td = true) :
    feed p (ds.map .data) =
      { p with current_cell := p.current_cell ++ ds.map pyStrip } := by
  induction ds generalizing p with
  | nil => simp [feed]
  | cons d ds ih =>
      simp only [List.map_cons]
      rw [feed_cons]
      have hstep : step p (.data d) =
          { p with current_cell := p.current_cell ++ [pyStrip d] } := by
        simp [step, handle_data, hp]
      rw [hstep,
        ih { p with current_cell := p.current_cell ++ [pyStrip d] } hp]
      simp

/-! ## Claim C1 -/

/-- C1 (counterexample): the claim "every field is initialized to NaN, so a
field receiving no mapped cell is NaN in the output" is false on the code:
line 366 builds the result with `np.zeros`, so every field starts at the
number 0.0.  Concretely, for a table whose only column is `TEMP.`, the data
row `["5"]` yields a record whose `pressure` field — mapped by no column —
is 0.0, not NaN. -/
theorem claim1_counterexample :
    (normalizeTable [["TEMP."], ["5"]]).map (fun r => r.pressure) = [some 0] ∧
    (normalizeTable [["TEMP."], ["5"]]).map (fun r => r.temperature) = [some 5] := by
  with_unfolding_all decide

/-- C1 (amended): every field of a fresh row record is initialized to the
number 0.0 (`np.zeros`), not NaN; a column whose header token is not in
`DWD_KEY_MAP` is translated to an unmapped (`None`) header entry and never
sets any record field; hence any field targeted by no mapped column is 0.0
(not NaN) in the output record. -/
theorem claim1_amended :
    (∀ f, getField zeroRecord f = some 0) ∧
    (∀ header sc r i col, header.get? i = some none →
      rowStep header sc r (i, col) = r) ∧
    (∀ row i col, row.get? i = some col →
      List.lookup col DWD_KEY_MAP = none →
      ((translateHeader row).1).get? i = some none) ∧
    (∀ header sc row f,
      (∀ nm ∈ header.filterMap id, targetsField nm f = false) →
      getField (processRow header sc row) f = some 0) := by
  refine ⟨getField_zeroRecord, ?_, ?_, ?_⟩
  · intro header sc r i col h
    unfold rowStep
    rw [h]
  · intro row i col hc hl
    rw [translateHeader_fst, List.get?_map, hc]
    simp [headerName, hl]
  · intro header sc row f h
    unfold processRow
    exact getField_foldl_rowStep_of_not_targets header sc f h _ _
      (getField_zeroRecord f)

/-- C1 (witness): a row under the single mapped header column `temperature`
leaves the untargeted `pressure` field at 0.0. -/
theorem claim1_witness :
    getField (processRow [some "temperature"] [1] ["5"]) FieldKey.pressure
      = some 0 :=
  claim1_amended.2.2.2 [some "temperature"] [1] ["5"] FieldKey.pressure
    (by decide)

/-! ## Claim C2 -/

/-- C2 (counterexample): the claim "a column mapped to (field, scale) whose
cell parses as `v` yields `v * scale`" fails when an unmapped column
precedes the mapped one, because line 381 appends to `header` but not to
`scale`, so `scale[i]` at line 407 is misaligned.  Header `["FOO","RR30"]`
maps column 1 to precipitation with scale 2.0 and cell `"4"` parses as 4,
but the output precipitation is NaN (the claim predicts 8.0): `scale` has a
single entry, `scale[1]` raises `IndexError`, and line 409 stores NaN. -/
theorem claim2_counterexample :
    (translateHeader ["FOO", "RR30"]).1 = [none, some "precipitation"] ∧
    (translateHeader ["FOO", "RR30"]).2 = [2.0] ∧
    pyFloat "4" = some 4 ∧
    (normalizeTable [["FOO", "RR30"], ["x", "4"]]).map (fun r => r.precipitation)
      = [none] := by
  with_unfolding_all decide

/-- C2 (amended): for a numeric field (the `station` and `wind_direction`
branches excluded), the per-cell update of lines 405-409 stores `v * s`
when the cell parses as `v` *and* the scale list has an entry `s` at the
column index (which holds whenever every column up to `i` is mapped); a
cell that does not parse stores NaN, and a missing scale entry (the
misalignment of the counterexample) also stores NaN; no exception reaches
the caller.  A table whose mapped column is not preceded by unmapped ones
behaves as the claim states: header `["RR30"]` with cell `"4"` yields
precipitation 8.0. -/
theorem claim2_amended :
    (∀ r sc i col (f : FieldKey) v s, pyFloat col = some v →
      sc.get? i = some s →
      getField (applyCell r (fieldName f) sc i col) f = some (v * s)) ∧
    (∀ r sc i col (f : FieldKey), pyFloat col = none →
      getField (applyCell r (fieldName f) sc i col) f = none) ∧
    (∀ r sc i col (f : FieldKey) v, pyFloat col = some v →
      sc.get? i = none →
      getField (applyCell r (fieldName f) sc i col) f = none) ∧
    (normalizeTable [["RR30"], ["4"]]).map (fun r => r.precipitation)
      = [some 8] := by
  have hfs : ∀ f : FieldKey, fieldName f ≠ "station" := by
    intro f; cases f <;> decide
  have hfw : ∀ f : FieldKey, fieldName f ≠ "wind_direction" := by
    intro f; cases f <;> decide
  refine ⟨?_, ?_, ?_, by with_unfolding_all decide⟩
  · intro r sc i col f v s h1 h2
    unfold applyCell
    rw [if_neg (hfs f), if_neg (hfw f)]
    simp only [h1, h2]
    exact getField_setField_fieldName r f (some (v * s))
  · intro r sc i col f h1
    unfold applyCell
    rw [if_neg (hfs f), if_neg (hfw f)]
    simp only [h1]
    exact getField_setField_fieldName r f none
  · intro r sc i col f v h1 h2
    unfold applyCell
    rw [if_neg (hfs f), if_neg (hfw f)]
    simp only [h1, h2]
    exact getField_setField_fieldName r f none

/-- C2 (witness): the per-cell update at scale entry 2 and cell text `"4"`
stores 8.0 into precipitation. -/
theorem claim2_witness :
    getField (applyCell zeroRecord (fieldName FieldKey.precipitation) [2] 0 "4")
      FieldKey.precipitation = some 8 :=
  (claim2_amended.1 zeroRecord [2] 0 "4" FieldKey.precipitation 4 2
    (by with_unfolding_all decide) rfl).trans (by with_unfolding_all decide)

/-! ## Claim C3 -/

/-- C3: a record passes `_data_filter` for a field iff its latitude,
longitude, altitude and that field are all non-NaN; and when no record
passes the filter, `interpolate` returns the unavailable marker (`None`)
for the whole batch of query points, rather than raising. -/
theorem claim3_eligibility :
    (∀ r k, dataFilter r k = true ↔
      (r.latitude.isSome ∧ r.longitude.isSome ∧ r.altitude.isSome ∧
        (getField r k).isSome)) ∧
    (∀ data k, (∀ r ∈ data, dataFilter r k = false) →
      interpolateSamples data k = none) := by
  constructor
  · intro r k
    unfold dataFilter
    cases hl : r.latitude <;> cases ho : r.longitude <;> cases ha : r.altitude <;>
      cases hk : getField r k <;> simp [hl, ho, ha, hk]
  · intro data k h
    unfold interpolateSamples
    have hf : data.filter (fun r => dataFilter r k) = [] := by
      rw [List.filter_eq_nil]
      intro a ha
      simp [h a ha]
    rw [hf]
    rfl

/-- C3 (witness): a single record with a NaN latitude is ineligible, and
interpolation over it returns the unavailable marker. -/
theorem claim3_witness :
    interpolateSamples [{ zeroRecord with latitude := none }]
      FieldKey.temperature = none :=
  claim3_eligibility.2 [{ zeroRecord with latitude := none }]
    FieldKey.temperature (by decide)

/-! ## Claim C4 -/

/-- C4: the composite distance of `data_norm` is zero on identical points,
symmetric in its two arguments, and equals exactly 100 km for two points
with the same latitude and longitude whose altitudes differ by exactly
1000 m. -/
theorem claim4_distance :
    (∀ p : GeoPoint, dataNormDist p p = 0) ∧
    (∀ p q : GeoPoint, dataNormDist p q = dataNormDist q p) ∧
    (∀ p q : GeoPoint, p.lat = q.lat → p.lon = q.lon →
      (p.alt - q.alt = 1000 ∨ q.alt - p.alt = 1000) →
      dataNormDist p q = 100) := by
  refine ⟨dataNormDist_self, dataNormDist_symm, ?_⟩
  intro p q h1 h2 h3
  unfold dataNormDist
  rw [h1, h2, haversine_same]
  have halt : ((p.alt - q.alt) / 1000.0 * ALT_WEIGHT) ^ 2 = 100 ^ 2 := by
    unfold ALT_WEIGHT
    rcases h3 with h | h
    · rw [h]; norm_num
    · have hd : p.alt - q.alt = -1000 := by linarith
      rw [hd]; norm_num
  rw [halt]
  have hsum : (0 : ℝ) ^ 2 + 100 ^ 2 = 100 ^ 2 := by norm_num
  rw [hsum, Real.sqrt_sq (by norm_num : (0:ℝ) ≤ 100)]

/-- C4 (witness): the points (50°, 10°) at 1100 m and at 100 m are exactly
100 km apart in the composite metric. -/
theorem claim4_witness :
    dataNormDist ⟨50, 10, 1100⟩ ⟨50, 10, 100⟩ = 100 :=
  claim4_distance.2.2 ⟨50, 10, 1100⟩ ⟨50, 10, 100⟩ rfl rfl
    (Or.inl (by norm_num))

/-! ## Claim C5 -/

/-- C5 (counterexample): the claim "on refresh failure a previously cached
RecordSet is returned" is false on the code.  With a cached record set
whose modification time is stale (so a refresh is attempted), a failed
refresh returns `None` (lines 350-351, 361-362) — and a transport error
propagates as an exception — even though `current_data` still holds the
previous record set. -/
theorem claim5_counterexample :
    stStale.current_data = some [zeroRecord] ∧
    (query stStale 5000 .noMatch).result = .ok none ∧
    (query stStale 5000 .transportError).result = .error () := by
  with_unfolding_all decide

/-- C5 (amended): when the cached data is absent or stale (so a refresh is
attempted), a failed refresh propagates the failure to the caller — `None`
for the no-file outcome, the uncaught exception for a transport error —
regardless of whether a cached RecordSet exists; the cache *state* is
retained unchanged, but the cached RecordSet is only ever returned by the
freshness check that precedes the refresh. -/
theorem claim5_amended (st : ApiState) (now : ℤ)
    (h : ¬(now - st.current_data_modification < timeout ∧
            st.current_data.isSome = true)) :
    query st now .noMatch = ⟨.ok none, st, true⟩ ∧
    query st now .transportError = ⟨.error (), st, true⟩ := by
  constructor <;> (unfold query; rw [if_neg h])

/-- C5 (witness): the amended behaviour at the concrete stale state. -/
theorem claim5_witness :
    query stStale 5000 .noMatch = ⟨.ok none, stStale, true⟩ ∧
    query stStale 5000 .transportError = ⟨.error (), stStale, true⟩ :=
  claim5_amended stStale 5000 (by decide)

/-! ## Claim C6 -/

/-- C6 (counterexample): the claim "two query calls within 1800 s of each
other trigger at most one fetch" is false on the code: line 413 records the
*upstream* modification time, not the fetch wall-clock time.  A first call
at time 10000 whose downloaded file reports modification time 0 fetches and
caches; a second call at time 10001 — one second later — finds
`10001 - 0 ≥ 1800` and fetches again: two fetches 1 s apart. -/
theorem claim6_counterexample :
    (query initState 10000 (.ok evT 0)).didFetch = true ∧
    (query initState 10000 (.ok evT 0)).state.current_data_modification = 0 ∧
    (query (query initState 10000 (.ok evT 0)).state 10001 (.ok evT 0)).didFetch
      = true ∧
    ((10001 : ℤ) - 10000 < timeout) := by
  with_unfolding_all decide

/-- C6 (amended): a call that finds cached data whose *recorded upstream
modification time* is within the refresh interval of `now` performs no
fetch and returns the cached RecordSet unchanged; since the recorded time
is the upstream's reported modification time rather than the wall-clock
time of the previous fetch, two calls within 1800 s of each other may both
fetch (as the counterexample shows). -/
theorem claim6_amended (st : ApiState) (now : ℤ) (fr : FetchResult)
    (d : List MeasurementRecord) (h1 : st.current_data = some d)
    (h2 : now - st.current_data_modification < timeout) :
    query st now fr = ⟨.ok (some d), st, false⟩ := by
  unfold query
  rw [if_pos ⟨h2, by rw [h1]; rfl⟩, h1]

/-- C6 (witness): a call one second after the recorded modification time is
served from the cache with no fetch. -/
theorem claim6_witness :
    query ⟨some [zeroRecord], 10000⟩ 10001 .transportError =
      ⟨.ok (some [zeroRecord]), ⟨some [zeroRecord], 10000⟩, false⟩ :=
  claim6_amended ⟨some [zeroRecord], 10000⟩ 10001 .transportError [zeroRecord]
    rfl (by decide)

/-! ## Claim C7 -/

/-- C7 (counterexample): the claim "a header-only first table (one header
row, zero data rows) is reported as no-data" is false on the code: line 361
tests `len(p.tables[0]) == 0`, i.e. zero *rows* including the header.  For
the header-only document `evH` the first table has one row, so the call
returns an *empty* record set (`some []`), caches it, and does not return
`None`. -/
theorem claim7_counterexample :
    parseTables evH = [[["TEMP."]]] ∧
    (query initState 10000 (.ok evH 7)).result = .ok (some []) ∧
    (query initState 10000 (.ok evH 7)).state.current_data = some [] := by
  with_unfolding_all decide

/-- C7 (amended): after a structurally successful fetch (and with the cache
absent or stale), the call returns the no-data outcome (`None`) exactly
when the parse produced zero tables or the first table has zero *rows*
(header included); a header-only first table instead yields an empty
RecordSet — `some []`, not `None` and not an exception. -/
theorem claim7_amended (st : ApiState) (now : ℤ) (ev : List HtmlEvent) (m : ℤ)
    (h : ¬(now - st.current_data_modification < timeout ∧
            st.current_data.isSome = true)) :
    ((query st now (.ok ev m)).result = .ok none ↔
      (parseTables ev = [] ∨ (parseTables ev).head? = some [])) ∧
    (∀ hdr rest, parseTables ev = [hdr] :: rest →
      (query st now (.ok ev m)).result = .ok (some [])) := by
  constructor
  · unfold query
    rw [if_neg h]
    cases hp : parseTables ev with
    | nil => simp only [hp]; simp
    | cons t ts =>
        simp only [hp]
        by_cases ht : t = []
        · simp [ht]
        · simp [ht, List.length_eq_zero]
  · intro hdr rest hp
    unfold query
    rw [if_neg h]
    simp only [hp]
    rfl

/-- C7 (witness): the amended behaviour at the concrete header-only
document. -/
theorem claim7_witness :
    (query initState 10000 (.ok evH 7)).result = .ok (some []) :=
  (claim7_amended initState 10000 evH 7 (by decide)).2 ["TEMP."] []
    (by decide)

/-! ## Claim C8 -/

/-- C8 (counterexample): the claim "a cell's reported text equals the raw
fragments joined by the separator, then trimmed" is false on the code:
line 71 strips *each fragment* before accumulating it.  For the fragments
`"a "` and `" b"` inside one cell with separator `" "`, the raw join
trimmed is `"a   b"` (three inner spaces survive trimming), but the parser
reports `"a b"`. -/
theorem claim8_counterexample :
    (feed (mkHTMLTableParser " ")
      [.starttag "td", .data "a ", .data " b", .endtag "td", .endtag "tr",
       .endtag "table"]).tables = [[["a b"]]] ∧
    pyStrip (" ".intercalate ["a ", " b"]) = "a   b" ∧
    ("a b" : String) ≠ "a   b" := by
  decide

/-- C8 (amended): a cell's reported text equals its text fragments *each
individually stripped of leading and trailing whitespace*, joined by the
configured separator, with the joined result trimmed again — for any
separator and any list of fragments delivered inside one cell. -/
theorem claim8_amended (sep : String) (ds : List String) :
    (feed (mkHTMLTableParser sep)
      (.starttag "td" :: (ds.map .data ++
        [.endtag "td", .endtag "tr", .endtag "table"]))).tables
      = [[[pyStrip (sep.intercalate (ds.map pyStrip))]]] := by
  rw [feed_cons]
  have h1 : step (mkHTMLTableParser sep) (.starttag "td") =
      { mkHTMLTableParser sep with in_td := true } := rfl
  rw [h1, feed_append,
    feed_data_acc ds { mkHTMLTableParser sep with in_td := true } rfl]
  have h2 : ∀ p : HTMLTableParser,
      feed p [.endtag "td", .endtag "tr", .endtag "table"] =
        handle_endtag (handle_endtag (handle_endtag p "td") "tr") "table" := by
    intro p; rfl
  rw [h2, handle_endtag_td, handle_endtag_tr, handle_endtag_table]
  simp [mkHTMLTableParser]

/-! ## Claim C9 -/

/-- C9 (counterexample): the claim "with exactly one eligible record, the
fitted interpolant evaluated at that record's own coordinates returns the
record's value" fails.  `rec9` is the only record and is eligible for
`temperature` with value 5, but any single-node radial-basis model with the
linear kernel evaluates to `w · d(p, p) = 0` at the node itself — for every
weight `w` — and `5 ≠ 0`, so no fitted model can return the value (the
scipy fit system `[[0]]·w = [5]` is singular and its solve fails). -/
theorem claim9_counterexample :
    interpolateSamples [rec9] FieldKey.temperature = some [((50, 10, 100), 5)] ∧
    (∀ w : ℝ, rbfEval [pt9] [w] pt9 = 0) ∧
    (5 : ℝ) ≠ 0 := by
  refine ⟨by with_unfolding_all decide, ?_, by norm_num⟩
  intro w
  simp [rbfEval, dataNormDist_self]

/-- C9 (amended): for a field with exactly one eligible record, any exact
linear-kernel radial-basis fit over that single sample forces the sample
value to be 0, and the model's value at the record's own coordinates is 0;
the claimed exact reproduction therefore holds only for the value 0, and
for a nonzero value no fitted interpolant exists at all. -/
theorem claim9_amended (p : GeoPoint) (y w : ℝ)
    (h : IsRbfFit [(p, y)] [w]) :
    y = 0 ∧ rbfEval [p] [w] p = 0 := by
  have he : rbfEval [p] [w] p = 0 := by
    simp [rbfEval, dataNormDist_self]
  refine ⟨?_, he⟩
  have hy := h.2 (p, y) (by simp)
  simp only [List.map_cons, List.map_nil] at hy
  rw [he] at hy
  exact hy.symm

/-- C9 (witness): the zero-valued single sample admits the zero-weight fit,
for which the amended statement holds. -/
theorem claim9_witness : (0 : ℝ) = 0 ∧ rbfEval [pt9] [(0 : ℝ)] pt9 = 0 :=
  claim9_amended pt9 0 0
    ⟨rfl, by
      intro s hs
      simp only [List.mem_singleton] at hs
      rw [hs]
      simp [rbfEval]⟩

/-! ## Claim C10 -/

/-- C10: `DWD_DIRECTION_MAP` maps both `"SO"` and `"NW"` to the same vector
(0.71, −0.71); consequently a wind-direction cell `"NW"` sets
`wind_direction_x = 0.71` and `wind_direction_y = −0.71` — identically to
`"SO"` — in every record, and the eight direction vectors are not pairwise
distinct. -/
theorem claim10_direction_map :
    List.lookup "SO" DWD_DIRECTION_MAP = some (0.71, -0.71) ∧
    List.lookup "NW" DWD_DIRECTION_MAP = some (0.71, -0.71) ∧
    (∀ r sc i, (applyCell r "wind_direction" sc i "NW").wind_direction_x
        = some 0.71 ∧
      (applyCell r "wind_direction" sc i "NW").wind_direction_y
        = some (-0.71) ∧
      applyCell r "wind_direction" sc i "NW"
        = applyCell r "wind_direction" sc i "SO") ∧
    (normalizeTable [["DD"], ["NW"]]).map
        (fun r => (r.wind_direction_x, r.wind_direction_y))
      = [(some 0.71, some (-0.71))] ∧
    ¬(DWD_DIRECTION_MAP.map Prod.snd).Nodup := by
  refine ⟨rfl, rfl, ?_, by with_unfolding_all decide,
    by with_unfolding_all decide⟩
  intro r sc i
  exact ⟨rfl, rfl, rfl⟩
